import Mathlib

/-
A shallow embedding of the hardware-isolation utilities of this repository
(src/redfish-core/include/utils/hw_isolation.hpp).

Each asynchronous D-Bus completion handler of the source is embedded as a pure
Lean function of the data the handler receives (the error code, the typed
payload), returning either the terminal outcome it writes into the response,
or the payload it forwards to the next remote call of the chain.  Out-of-bounds
accesses on std vectors (operator[] on an empty vector, back() on an empty
vector) are undefined behavior in the source and are embedded as an explicit
`ub` result.
-/

namespace hw_isolation_utils

/-- The characters after the last '/' of the list, or none when no '/'
occurs (the rfind-based scan of sdbusplus object_path). -/
def afterLastSlash : List Char → Option (List Char)
  | [] => none
  | c :: rest =>
    match afterLastSlash rest with
    | some s => some s
    | none => if c = '/' then some rest else none

/-- The characters before the last '/' of the list, or none when no '/'
occurs. -/
def beforeLastSlash : List Char → Option (List Char)
  | [] => none
  | c :: rest =>
    match beforeLastSlash rest with
    | some s => some (c :: s)
    | none => if c = '/' then some [] else none

/-- Modelled from the spec: sdbusplus object_path filename() — the final
'/'-separated segment of the path, or "" when the path contains no '/'
(the sdbusplus hex-decoding of leading-underscore segments is external to
this repository and not modelled). -/
def pathFilename (p : String) : String :=
  match afterLastSlash p.data with
  | none => ""
  | some s => ⟨s⟩

/-- Modelled from the spec: sdbusplus object_path parent_path() — the path
with its final '/'-separated segment removed; "/" when the path has no '/'
or the only '/' is at position zero. -/
def parentPath (p : String) : String :=
  match beforeLastSlash p.data with
  | none => "/"
  | some [] => "/"
  | some s => ⟨s⟩

/-- The terminal outcomes this subsystem writes into the redfish response
(the messages:: calls reachable from hw_isolation.hpp). -/
inductive Outcome where
  | success
  | internalError
  | resourceInStandby
  | createLimitReachedForResource
  | propertyValueIncorrect (prop val : String)
  | propertyNotWritable (prop : String)
  | resourceAlreadyExists (prop name id : String)
  | resourceNotFound (name id : String)
deriving DecidableEq, Repr

/-- What one completion handler of an asynchronous chain does: writes a
terminal outcome and returns, returns silently without writing, forwards a
payload to the next remote call, or hits undefined behavior (an out-of-bounds
std::vector access in the source). -/
inductive Step (α : Type) where
  | wrote (m : Outcome)
  | silent
  | next (a : α)
  | ub
deriving DecidableEq, Repr

/-- Sequencing of a handler result with the rest of the chain: the writes of
the whole chain are the handler's own write, or the writes of the
continuation it forwards to. A chain that returned silently or died on
undefined behavior writes nothing further. -/
def stepRun {α : Type} (s : Step α) (f : α → List Outcome) : List Outcome :=
  match s with
  | .wrote m => [m]
  | .silent => []
  | .ub => []
  | .next a => f a

/-- Embedding of the completion handler of the isolate "Create" call in
isolateResource (hw_isolation.hpp lines 36-96): `ec` is the truthiness of the
boost error code, `errName` is the D-Bus error name carried by the reply
message (none when msg.get_error() is nullptr).  Note std::to_string applied
to the constexpr bool `isolate = false` promotes it to int and yields "0". -/
def isolateResourceHandler (resourceName resourceId : String) (ec : Bool)
    (errName : Option String) : Outcome :=
  if !ec then .success
  else
    match errName with
    | none => .internalError
    | some name =>
      if name = "xyz.openbmc_project.Common.Error.InvalidArgument" then
        .propertyValueIncorrect "@odata.id" "0"
      else if name = "xyz.openbmc_project.Common.Error.NotAllowed" then
        .propertyNotWritable "Enabled"
      else if name = "xyz.openbmc_project.Common.Error.Unavailable" then
        .resourceInStandby
      else if name = "xyz.openbmc_project.HardwareIsolation.Error.IsolatedAlready" then
        .resourceAlreadyExists "@odata.id" resourceName resourceId
      else if name = "xyz.openbmc_project.Common.Error.TooManyResources" then
        .createLimitReachedForResource
      else .internalError

/-- Embedding of the "isolated_hw_entry" endpoints-read completion handler in
deisolateResource (hw_isolation.hpp lines 129-155): `vEndpoints` is none when
the returned variant does not hold a vector of strings.  On success the
handler takes endpoints->back() — undefined behavior on an empty vector — and
forwards it as the Delete target. -/
def deisolateEndpointsHandler (ec : Bool) (vEndpoints : Option (List String)) :
    Step String :=
  if ec then .wrote .internalError
  else
    match vEndpoints with
    | none => .wrote .internalError
    | some endpoints =>
      match endpoints.getLast? with
      | none => .ub
      | some entry => .next entry

/-- Embedding of the "Delete" completion handler in deisolateResource
(hw_isolation.hpp lines 159-202). -/
def deleteEntryHandler (ec : Bool) (errName : Option String) : Outcome :=
  if !ec then .success
  else
    match errName with
    | none => .internalError
    | some name =>
      if name = "xyz.openbmc_project.Common.Error.NotAllowed" then
        .propertyNotWritable "Entry"
      else if name = "xyz.openbmc_project.Common.Error.Unavailable" then
        .resourceInStandby
      else .internalError

/-- The scan loop of the GetSubTreePaths handler in processHardwareIsolationReq
(hw_isolation.hpp lines 263-272): resourceObjPath starts as the
default-constructed (empty) object path and receives the first object whose
filename equals resourceId. -/
def findMatch (objects : List String) (resourceId : String) : String :=
  match objects with
  | [] => ""
  | o :: rest => if pathFilename o = resourceId then o else findMatch rest resourceId

/-- Embedding of the GetSubTreePaths completion handler in
processHardwareIsolationReq (hw_isolation.hpp lines 250-279): on transport
failure writes internalError; otherwise scans the returned objects for the
resourceId and writes resourceNotFound when the scan leaves the path empty,
else forwards the matched path. -/
def subtreeHandler (resourceName resourceId : String) (ec : Bool)
    (objects : List String) : Step String :=
  if ec then .wrote .internalError
  else
    if findMatch objects resourceId = "" then
      .wrote (.resourceNotFound resourceName resourceId)
    else .next (findMatch objects resourceId)

/-- Embedding of the GetObject (owning-service lookup) completion handler; the
identical logic appears twice, in processHardwareIsolationReq
(hw_isolation.hpp lines 283-326) and in getHwIsolationStatus (lines 454-484):
transport failure or more than one result or an empty first service name is
internalError; otherwise the first service name is forwarded.  objType[0] on
an empty vector is undefined behavior. -/
def serviceLookupHandler (ec : Bool) (objType : List (String × List String)) :
    Step String :=
  if ec then .wrote .internalError
  else if objType.length > 1 then .wrote .internalError
  else
    match objType with
    | [] => .ub
    | entry :: _ =>
      if entry.1 = "" then .wrote .internalError
      else .next entry.1

/-- Outcome of setSeverity (hw_isolation.hpp lines 352-383): `setTo s` means
the value s was written at the severity property path and true was returned;
`failed` means internalError was written, the severity was left unset, and
false was returned. -/
inductive SeverityResult where
  | setTo (s : String)
  | failed
deriving DecidableEq, Repr

/-- Embedding of setSeverity (hw_isolation.hpp lines 352-383): the D-Bus
severity enum string is compared for full equality against three known
values. -/
def setSeverity (severityVal : String) : SeverityResult :=
  if severityVal = "xyz.openbmc_project.Logging.Event.SeverityLevel.Critical" then
    .setTo "Critical"
  else if severityVal = "xyz.openbmc_project.Logging.Event.SeverityLevel.Warning"
      ∨ severityVal = "xyz.openbmc_project.Logging.Event.SeverityLevel.Unknown" then
    .setTo "Warning"
  else if severityVal = "xyz.openbmc_project.Logging.Event.SeverityLevel.Ok" then
    .setTo "OK"
  else .failed

/-- The reserved "no such property/association" error code tolerated by the
status read (errno EBADR on Linux). -/
def EBADR : Nat := 53

/-- Embedding of the "event_log" endpoints-read completion handler in
getHwIsolationStatus (hw_isolation.hpp lines 399-450): ecValue is the boost
error-code value (0 = success); on EBADR the handler returns silently; on any
other failure it writes internalError; on success it scans the endpoints for
the first one whose parent path's filename is "hw_isolation_status" and
returns silently when none matches. -/
def statusEndpointsHandler (ecValue : Nat) (vEndpoints : Option (List String)) :
    Step String :=
  if ecValue ≠ 0 then
    if ecValue = EBADR then .silent else .wrote .internalError
  else
    match vEndpoints with
    | none => .wrote .internalError
    | some endpoints =>
      match endpoints.find? (fun e => pathFilename (parentPath e) = "hw_isolation_status") with
      | none => .silent
      | some e => .next e

/-- The variant type of a hardware-status event property
(std::variant of string, uint64_t, and the associations tuple list). -/
inductive PropValue where
  | str (s : String)
  | uint (n : Nat)
  | assocs (l : List (String × String × String))
deriving DecidableEq, Repr

/-- The single condition object built by the status aggregator. -/
structure Condition where
  message : Option String := none
  messageArgs : Option (List String) := none
  messageId : Option String := none
  severity : Option String := none
  timestamp : Option String := none
  logEntry : Option String := none
deriving DecidableEq, Repr

/-- The caller's Status JSON subtree as touched by getHwIsolationStatus:
the State string and the Conditions array (none = the key is absent). -/
structure StatusBlock where
  state : Option String := none
  conditions : Option (List Condition) := none
deriving DecidableEq, Repr

/-- The number of condition objects in the Status.Conditions array. -/
def conditionCount (b : StatusBlock) : Nat := (b.conditions.getD []).length

/-- Modelled from the spec: crow getDateTime formats the epoch value as an
absolute timestamp string; the formatter is external to src/ and its exact
output is irrelevant to the claims, only that it is a function of the raw
value. -/
def getDateTime (t : Nat) : String := toString t

/-- Modelled from the spec: error_log_utils::setErrorLogUri (external to
src/) resolves the error-log object path into a referenceable URI and
attaches it at the given property path; per the spec it only attaches the
URI. -/
def errorLogUri (errPath : String) : String := errPath

/-- Modify the condition object at index 0 of the Status.Conditions array
(all per-property writes of the source go through the reference to
conditions.back() — the only element — or through the fixed json pointer
/Status/Conditions/0/...). -/
def updateCondition0 (block : StatusBlock) (f : Condition → Condition) : StatusBlock :=
  { block with conditions := block.conditions.map (fun l => l.set 0 (f (l.headD {}))) }

/-- One step of the Associations scan (hw_isolation.hpp lines 538-551): an
association tuple whose relation is "error_log" attaches the resolved
error-log URI at /Status/Conditions/0/LogEntry; any other tuple is skipped. -/
def assocStep (block : StatusBlock) (assoc : String × String × String) : StatusBlock :=
  if assoc.1 = "error_log" then
    updateCondition0 block (fun c => { c with logEntry := some (errorLogUri assoc.2.2) })
  else block

/-- std::string find-and-replace of the first occurrence of pat (list form):
message.find(argIndex) followed by message.replace(argPos, len, arg); when
the pattern does not occur the message is unchanged. -/
def listReplaceFirst (pat rep : List Char) : List Char → List Char
  | [] => []
  | c :: rest =>
    if pat.isPrefixOf (c :: rest) then rep ++ (c :: rest).drop pat.length
    else c :: listReplaceFirst pat rep rest

/-- String wrapper of listReplaceFirst. -/
def replaceFirst (s pat rep : String) : String :=
  ⟨listReplaceFirst pat.data rep.data s.data⟩

/-- The argument-substitution loop of the Message branch (hw_isolation.hpp
lines 608-622): for the i-th argument (1-based) the first occurrence of "%i"
in the message is replaced by the argument. -/
def substLoop : String → List String → Nat → String
  | msg, [], _ => msg
  | msg, a :: rest, i => substLoop (replaceFirst msg ("%" ++ toString i) a) rest (i + 1)

/-- The named per-condition update of the Message branch (hw_isolation.hpp
lines 604-628): the raw property value is the sole message argument, the
argument-substitution loop renders the template, and the id and the argument
list are recorded verbatim. -/
def messageBranch (template m : String) : Condition → Condition :=
  fun c =>
    { c with message := some (substLoop template [m] 1),
             messageArgs := some [m],
             messageId := some "OpenBMC.0.2.HardwareIsolationReason" }

/-- Embedding of one iteration of the property fold in getHwIsolationStatus
(hw_isolation.hpp lines 521-656).  `registry` is the external message
registry lookup (message_registries::getMessage, external to src/; none
models the nullptr result).  An error result means the iteration wrote
internalError into the response and returned; an ok result is the updated
status block. -/
def applyProp (registry : String → Option String) (block : StatusBlock)
    (p : String × PropValue) : Except Outcome StatusBlock :=
  if p.1 = "Associations" then
    match p.2 with
    | .assocs l => .ok (l.foldl assocStep block)
    | _ => .error .internalError
  else if p.1 = "Timestamp" then
    match p.2 with
    | .uint t => .ok (updateCondition0 block (fun c => { c with timestamp := some (getDateTime t) }))
    | _ => .error .internalError
  else if p.1 = "Message" then
    match p.2 with
    | .str m =>
      match registry "OpenBMC.0.2.HardwareIsolationReason" with
      | none => .error .internalError
      | some template => .ok (updateCondition0 block (messageBranch template m))
    | _ => .error .internalError
  else if p.1 = "Severity" then
    match p.2 with
    | .str s =>
      match setSeverity s with
      | .setTo out => .ok (updateCondition0 block (fun c => { c with severity := some out }))
      | .failed => .error .internalError
    | _ => .error .internalError
  else .ok block

/-- The property fold of getHwIsolationStatus: iterate applyProp, stopping at
the first property whose handling wrote an error. -/
def propsFold (registry : String → Option String) (block : StatusBlock) :
    List (String × PropValue) → Except Outcome StatusBlock
  | [] => .ok block
  | p :: rest =>
    match applyProp registry block p with
    | .error m => .error m
    | .ok b2 => propsFold registry b2 rest

/-- Embedding of the GetAll (event properties) completion handler in
getHwIsolationStatus (hw_isolation.hpp lines 495-657): transport failure is
internalError; otherwise Status.State is forced to "Disabled", the
Status.Conditions array is overwritten with a single empty condition object
regardless of the prior content, and the properties are folded into it. -/
def propertiesHandler (registry : String → Option String) (prior : StatusBlock)
    (ec : Bool) (props : List (String × PropValue)) : Except Outcome StatusBlock :=
  if ec then .error .internalError
  else propsFold registry
    { prior with state := some "Disabled", conditions := some [{}] } props

/-- The remote results fed to one processHardwareIsolationReq orchestration:
the GetSubTreePaths reply, the GetObject reply, and the replies of the
isolate Create call, the endpoints read, and the entry Delete call (only the
ones the selected branch performs are consulted). -/
structure BusOracle where
  subtreeEc : Bool
  subtreeObjects : List String
  lookupEc : Bool
  lookupResult : List (String × List String)
  createEc : Bool
  createError : Option String
  endpointsEc : Bool
  endpointsValue : Option (List String)
  deleteEc : Bool
  deleteError : Option String

/-- The remote results fed to one getHwIsolationStatus orchestration. -/
structure StatusOracle where
  endpointsEcValue : Nat
  endpointsValue : Option (List String)
  lookupEc : Bool
  lookupResult : List (String × List String)
  propsEc : Bool
  props : List (String × PropValue)

/-- The terminal outcomes written by one whole processHardwareIsolationReq
call chain (hw_isolation.hpp lines 238-338 with the isolateResource and
deisolateResource continuations), as a function of the remote replies. -/
def processChainWrites (resourceName resourceId : String) (enabled : Bool)
    (o : BusOracle) : List Outcome :=
  stepRun (subtreeHandler resourceName resourceId o.subtreeEc o.subtreeObjects) fun _objPath =>
  stepRun (serviceLookupHandler o.lookupEc o.lookupResult) fun _svc =>
  if !enabled then
    [isolateResourceHandler resourceName resourceId o.createEc o.createError]
  else
    stepRun (deisolateEndpointsHandler o.endpointsEc o.endpointsValue) fun _entry =>
    [deleteEntryHandler o.deleteEc o.deleteError]

/-- The terminal outcomes written by one whole getHwIsolationStatus call
chain (hw_isolation.hpp lines 394-671), as a function of the remote
replies. -/
def statusChainWrites (registry : String → Option String) (prior : StatusBlock)
    (o : StatusOracle) : List Outcome :=
  stepRun (statusEndpointsHandler o.endpointsEcValue o.endpointsValue) fun _evt =>
  stepRun (serviceLookupHandler o.lookupEc o.lookupResult) fun _svc =>
  match propertiesHandler registry prior o.propsEc o.props with
  | .error m => [m]
  | .ok _ => []

/-- A fixed registry used by concrete witnesses: every id maps to the
template of the spec scenario. -/
def regW : String → Option String := fun _ => some "Reason: %1 detected"

/-- The status block produced by folding a single well-formed Severity
property from the empty prior block, used by a concrete witness. -/
def blockW : StatusBlock :=
  { state := some "Disabled", conditions := some [{ severity := some "Critical" }] }

end hw_isolation_utils

deriving instance DecidableEq for Except

namespace hw_isolation_utils

/-- C1 counterexample: on a failed isolate with the InvalidArgument domain
error, the value argument of propertyValueIncorrect is not "false" —
std::to_string applied to the bool false yields "0". -/
theorem isolate_invalid_argument_value_refuted :
    isolateResourceHandler "Processor" "cpu0" true
        (some "xyz.openbmc_project.Common.Error.InvalidArgument") ≠
      Outcome.propertyValueIncorrect "@odata.id" "false" := by decide

/-- C1 (amended): for every failed isolate operation, isolateResource maps
the domain error identifier per the table, with InvalidArgument yielding
propertyValueIncorrect("@odata.id", "0"); an absent or unrecognized
identifier yields internalError. -/
theorem isolate_error_mapping (rn rid : String) :
    isolateResourceHandler rn rid true
        (some "xyz.openbmc_project.Common.Error.InvalidArgument") =
      .propertyValueIncorrect "@odata.id" "0" ∧
    isolateResourceHandler rn rid true
        (some "xyz.openbmc_project.Common.Error.NotAllowed") =
      .propertyNotWritable "Enabled" ∧
    isolateResourceHandler rn rid true
        (some "xyz.openbmc_project.Common.Error.Unavailable") =
      .resourceInStandby ∧
    isolateResourceHandler rn rid true
        (some "xyz.openbmc_project.HardwareIsolation.Error.IsolatedAlready") =
      .resourceAlreadyExists "@odata.id" rn rid ∧
    isolateResourceHandler rn rid true
        (some "xyz.openbmc_project.Common.Error.TooManyResources") =
      .createLimitReachedForResource ∧
    isolateResourceHandler rn rid true none = .internalError ∧
    ∀ name, name ∉ ["xyz.openbmc_project.Common.Error.InvalidArgument",
        "xyz.openbmc_project.Common.Error.NotAllowed",
        "xyz.openbmc_project.Common.Error.Unavailable",
        "xyz.openbmc_project.HardwareIsolation.Error.IsolatedAlready",
        "xyz.openbmc_project.Common.Error.TooManyResources"] →
      isolateResourceHandler rn rid true (some name) = .internalError := by
  refine ⟨rfl, rfl, rfl, rfl, rfl, rfl, ?_⟩
  intro name hname
  simp only [List.mem_cons, List.not_mem_nil, or_false, not_or] at hname
  obtain ⟨h1, h2, h3, h4, h5⟩ := hname
  simp [isolateResourceHandler, h1, h2, h3, h4, h5]

/-- C1 witness: an unrecognized identifier maps to internalError at a
concrete input. -/
theorem isolate_error_mapping_witness :
    isolateResourceHandler "Processor" "cpu0" true (some "xyz.bogus.Error") =
      Outcome.internalError :=
  (isolate_error_mapping "Processor" "cpu0").2.2.2.2.2.2 "xyz.bogus.Error" (by decide)

/-- C2: on a successful GetObject reply the owning-service lookup maps a
two-entry result set and a single empty-name entry to internalError, but a
zero-length result set is an out-of-bounds access on objType[0] (undefined
behavior), not internalError. -/
theorem service_lookup_result_cardinality :
    serviceLookupHandler false [] = Step.ub ∧
    serviceLookupHandler false [("", [])] = .wrote .internalError ∧
    serviceLookupHandler false [("svcA", []), ("svcB", [])] = .wrote .internalError := by
  decide

/-- C3: a successful endpoints read with a non-empty list forwards exactly
the last endpoint of the list as the Delete target, and a successful Delete
writes the success outcome whatever the reply message carries. -/
theorem deisolate_targets_last_endpoint (endpoints : List String)
    (h : endpoints ≠ []) :
    deisolateEndpointsHandler false (some endpoints) = .next (endpoints.getLast h) ∧
    ∀ e, deleteEntryHandler false e = .success := by
  constructor
  · simp [deisolateEndpointsHandler, List.getLast?_eq_getLast endpoints h]
  · intro e
    rfl

/-- C3 witness: on the fixture list the Delete target is "/e/2" (and hence
not "/e/1"), and the successful Delete writes success. -/
theorem deisolate_targets_last_endpoint_witness :
    deisolateEndpointsHandler false (some ["/e/1", "/e/2"]) = Step.next "/e/2" ∧
    deleteEntryHandler false none = Outcome.success := by
  have h := deisolate_targets_last_endpoint ["/e/1", "/e/2"] (by decide)
  exact ⟨h.1, h.2 none⟩

/-- C4: a successful endpoints read whose variant is not a list of strings
writes internalError, but an empty endpoint list is endpoints->back() on an
empty vector (undefined behavior), not internalError. -/
theorem deisolate_empty_endpoint_divergence :
    deisolateEndpointsHandler false (some []) = Step.ub ∧
    deisolateEndpointsHandler false none = .wrote .internalError := by decide

/-- Helper: when no object of the subtree reply matches the resource id the
scan leaves the resolved path empty. -/
theorem findMatch_eq_empty_of_no_match (rid : String) (objects : List String)
    (h : ∀ o ∈ objects, pathFilename o ≠ rid) : findMatch objects rid = "" := by
  induction objects with
  | nil => rfl
  | cons o rest ih =>
    simp only [findMatch]
    rw [if_neg (h o (List.mem_cons_self o rest))]
    exact ih (fun x hx => h x (List.mem_cons_of_mem o hx))

/-- C5: when the subtree query succeeds and no returned object path has a
final segment equal to the requested resource id, the handler writes
resourceNotFound with the requested name and id verbatim and does not
forward to any further remote call. -/
theorem no_subtree_match_yields_not_found (rn rid : String)
    (objects : List String) (h : ∀ o ∈ objects, pathFilename o ≠ rid) :
    subtreeHandler rn rid false objects = .wrote (.resourceNotFound rn rid) := by
  simp [subtreeHandler, findMatch_eq_empty_of_no_match rid objects h]

/-- C5 witness: a concrete subtree without the requested id yields
resourceNotFound. -/
theorem no_subtree_match_yields_not_found_witness :
    subtreeHandler "Processor" "cpu0" false ["/inv/sys/cpu1"] =
      Step.wrote (Outcome.resourceNotFound "Processor" "cpu0") :=
  no_subtree_match_yields_not_found "Processor" "cpu0" ["/inv/sys/cpu1"] (by decide)

/-- C6 counterexample: the value "Critical" ends in "Critical" yet
setSeverity rejects it (writes internalError and returns false) — the source
compares the full enum string, not a suffix. -/
theorem severity_suffix_refuted :
    ("Critical".data).isSuffixOf ("Critical".data) = true ∧
    setSeverity "Critical" = SeverityResult.failed := by decide

/-- C6 (amended): setSeverity maps exactly the full enum string
...SeverityLevel.Critical to "Critical" (returning true), the full
...SeverityLevel.Warning and ...SeverityLevel.Unknown strings to "Warning",
the full ...SeverityLevel.Ok string to "OK", and every other value to
failure (internalError written, severity unset, false returned). -/
theorem setSeverity_exact_table (s : String) :
    setSeverity "xyz.openbmc_project.Logging.Event.SeverityLevel.Critical" =
      .setTo "Critical" ∧
    setSeverity "xyz.openbmc_project.Logging.Event.SeverityLevel.Warning" =
      .setTo "Warning" ∧
    setSeverity "xyz.openbmc_project.Logging.Event.SeverityLevel.Unknown" =
      .setTo "Warning" ∧
    setSeverity "xyz.openbmc_project.Logging.Event.SeverityLevel.Ok" =
      .setTo "OK" ∧
    (s ∉ ["xyz.openbmc_project.Logging.Event.SeverityLevel.Critical",
          "xyz.openbmc_project.Logging.Event.SeverityLevel.Warning",
          "xyz.openbmc_project.Logging.Event.SeverityLevel.Unknown",
          "xyz.openbmc_project.Logging.Event.SeverityLevel.Ok"] →
      setSeverity s = .failed) := by
  refine ⟨by decide, by decide, by decide, by decide, ?_⟩
  intro hs
  simp only [List.mem_cons, List.not_mem_nil, or_false, not_or] at hs
  obtain ⟨h1, h2, h3, h4⟩ := hs
  simp [setSeverity, h1, h2, h3, h4]

/-- C6 witness: an unrecognized severity string fails at a concrete input. -/
theorem setSeverity_exact_table_witness :
    setSeverity "bogus" = SeverityResult.failed :=
  (setSeverity_exact_table "bogus").2.2.2.2 (by decide)

/-- C7: when the event_log endpoints read fails with the reserved EBADR code
the handler returns silently (no mutation of the status block, no error
written); when it fails with any other code the handler writes
internalError. -/
theorem status_read_ebadr_silent (ecValue : Nat) (v : Option (List String))
    (h : ecValue ≠ 0) :
    (ecValue = EBADR → statusEndpointsHandler ecValue v = .silent) ∧
    (ecValue ≠ EBADR → statusEndpointsHandler ecValue v = .wrote .internalError) := by
  constructor
  · intro he
    simp [statusEndpointsHandler, h, he, EBADR]
  · intro he
    simp [statusEndpointsHandler, h, he]

/-- C7 witness: the EBADR value 53 is silent and the value 5 writes
internalError. -/
theorem status_read_ebadr_silent_witness :
    statusEndpointsHandler 53 none = Step.silent ∧
    statusEndpointsHandler 5 none = Step.wrote Outcome.internalError :=
  ⟨(status_read_ebadr_silent 53 none (by decide)).1 (by decide),
   (status_read_ebadr_silent 5 none (by decide)).2 (by decide)⟩

/-- C8: with the registry resolving the HardwareIsolationReason id to a
template, the Message branch stores the template with the first "%1"
replaced by the raw property value as the sole argument, and records the
message id and argument list verbatim; the spec scenario renders as
expected. -/
theorem message_rendering (registry : String → Option String)
    (block : StatusBlock) (c : Condition) (template m : String)
    (hreg : registry "OpenBMC.0.2.HardwareIsolationReason" = some template) :
    applyProp registry block ("Message", PropValue.str m) =
      Except.ok (updateCondition0 block (messageBranch template m)) ∧
    (messageBranch template m c).message = some (replaceFirst template "%1" m) ∧
    (messageBranch template m c).messageArgs = some [m] ∧
    (messageBranch template m c).messageId =
      some "OpenBMC.0.2.HardwareIsolationReason" ∧
    replaceFirst "Reason: %1 detected" "%1" "overheat" = "Reason: overheat detected" := by
  refine ⟨?_, rfl, rfl, rfl, by decide⟩
  show (match registry "OpenBMC.0.2.HardwareIsolationReason" with
    | none => (Except.error Outcome.internalError : Except Outcome StatusBlock)
    | some template => Except.ok (updateCondition0 block (messageBranch template m))) = _
  rw [hreg]

/-- C8 witness: the spec scenario applied through the property fold at a
concrete registry, block, and argument. -/
theorem message_rendering_witness :
    applyProp regW {} ("Message", PropValue.str "overheat") =
      Except.ok (updateCondition0 {} (messageBranch "Reason: %1 detected" "overheat")) ∧
    (messageBranch "Reason: %1 detected" "overheat" {}).message =
      some (replaceFirst "Reason: %1 detected" "%1" "overheat") ∧
    (messageBranch "Reason: %1 detected" "overheat" {}).messageArgs =
      some ["overheat"] ∧
    (messageBranch "Reason: %1 detected" "overheat" {}).messageId =
      some "OpenBMC.0.2.HardwareIsolationReason" ∧
    replaceFirst "Reason: %1 detected" "%1" "overheat" = "Reason: overheat detected" :=
  message_rendering regW {} {} "Reason: %1 detected" "overheat" rfl

/-- Helper: a chain whose continuations each write at most one outcome
writes at most one outcome in total. -/
theorem stepRun_length_le_one {α : Type} (s : Step α) (f : α → List Outcome)
    (h : ∀ a, (f a).length ≤ 1) : (stepRun s f).length ≤ 1 := by
  cases s with
  | wrote m => simp [stepRun]
  | silent => simp [stepRun]
  | ub => simp [stepRun]
  | next a => exact h a

/-- C9: a single processHardwareIsolationReq orchestration and a single
getHwIsolationStatus orchestration each write at most one terminal outcome
into the response context, whatever the remote replies are. -/
theorem at_most_one_terminal_write (rn rid : String) (enabled : Bool)
    (o : BusOracle) (registry : String → Option String) (prior : StatusBlock)
    (so : StatusOracle) :
    (processChainWrites rn rid enabled o).length ≤ 1 ∧
    (statusChainWrites registry prior so).length ≤ 1 := by
  constructor
  · unfold processChainWrites
    apply stepRun_length_le_one
    intro _
    apply stepRun_length_le_one
    intro _
    cases enabled with
    | false => simp
    | true =>
      show (stepRun (deisolateEndpointsHandler o.endpointsEc o.endpointsValue)
        fun _entry => [deleteEntryHandler o.deleteEc o.deleteError]).length ≤ 1
      apply stepRun_length_le_one
      intro _
      simp
  · unfold statusChainWrites
    apply stepRun_length_le_one
    intro _
    apply stepRun_length_le_one
    intro _
    split <;> simp

/-- Helper: modifying the condition at index 0 does not change the number of
conditions. -/
theorem updateCondition0_count (block : StatusBlock) (f : Condition → Condition) :
    conditionCount (updateCondition0 block f) = conditionCount block := by
  cases hb : block.conditions with
  | none => simp [updateCondition0, conditionCount, hb]
  | some l => simp [updateCondition0, conditionCount, hb]

/-- Helper: the error_log association scan does not change the number of
conditions. -/
theorem assocFold_count (l : List (String × String × String)) (block : StatusBlock) :
    conditionCount (l.foldl assocStep block) = conditionCount block := by
  induction l generalizing block with
  | nil => rfl
  | cons a rest ih =>
    rw [List.foldl_cons, ih]
    unfold assocStep
    split
    · exact updateCondition0_count block _
    · rfl

/-- Helper: a successful iteration of the property fold does not change the
number of conditions. -/
theorem applyProp_count (registry : String → Option String) (block : StatusBlock)
    (p : String × PropValue) (b : StatusBlock)
    (h : applyProp registry block p = Except.ok b) :
    conditionCount b = conditionCount block := by
  unfold applyProp at h
  repeat' split at h
  all_goals cases h
  all_goals first
    | exact assocFold_count _ block
    | exact updateCondition0_count block _
    | rfl

/-- Helper: a successful property fold does not change the number of
conditions. -/
theorem propsFold_count (registry : String → Option String)
    (props : List (String × PropValue)) :
    ∀ (block b : StatusBlock), propsFold registry block props = Except.ok b →
      conditionCount b = conditionCount block := by
  induction props with
  | nil =>
    intro block b h
    cases h
    rfl
  | cons p rest ih =>
    intro block b h
    unfold propsFold at h
    split at h
    · cases h
    · rename_i b2 hb2
      exact (ih b2 b h).trans (applyProp_count registry block p b2 hb2)

/-- C10: whenever the property fold of getHwIsolationStatus runs (the
properties were fetched successfully), the Status.Conditions array of the
resulting block holds exactly one condition object, whatever the prior block
content, the registry, and the fetched properties are. -/
theorem status_render_single_condition (registry : String → Option String)
    (prior : StatusBlock) (props : List (String × PropValue)) (b : StatusBlock)
    (h : propertiesHandler registry prior false props = Except.ok b) :
    conditionCount b = 1 :=
  propsFold_count registry props
    { prior with state := some "Disabled", conditions := some [{}] } b h

/-- C10 witness: a concrete fold of a single Severity property yields a
block with exactly one condition. -/
theorem status_render_single_condition_witness : conditionCount blockW = 1 :=
  status_render_single_condition regW {}
    [("Severity", PropValue.str "xyz.openbmc_project.Logging.Event.SeverityLevel.Critical")]
    blockW (by decide)

end hw_isolation_utils
